import Mathlib

/-!
# Stan2KafkaConnector: lifecycle of the STAN-to-Kafka connector

A shallow embedding of `server/core/stan2kafka.go`.

* The connector is a record of its two resource handles (`writer`, `sub`), its
  read-only configuration and its statistics holder.
* The collaborators whose code lives outside the file (`bridge.CheckStan`,
  `connectWriter`, `subscribeToChannel`, `sub.Unsubscribe`, `writer.Close`) are
  not interpreted: each operation takes the values they return as an explicit
  outcome argument, and reports every collaborator call it makes, in program
  order, in the `calls` list of its result.
* `conn.Lock()` / `defer conn.Unlock()` make Start and Shutdown critical
  sections; a serialized execution is a sequence of calls, each applied to the
  state left by the previous one (`run`).
-/

namespace Stan2Kafka

/-- Identity of a `*kafka.Writer`; the nil pointer is `none` in `Option Writer`. -/
abbrev Writer := Nat

/-- Identity of a `stan.Subscription`; the nil interface is `none`. -/
abbrev Subscription := Nat

/-- A Go `error` value that is not nil, identified by its message. -/
abbrev Error := String

/-- The fields of `conf.ConnectorConfig` read by this file. -/
structure ConnectorConfig where
  Channel : String
  Topic : String
  DurableName : String
deriving DecidableEq, Repr

/-- Modelled from the spec: the statistics holder behind `conn.stats` is not in
src; the spec describes it as a sink "exposing connect/disconnect counters". -/
structure ConnectorStats where
  name : String
  connects : Nat
  disconnects : Nat
deriving DecidableEq, Repr

/-- Modelled from the spec: `stats.AddConnect` is not in src; it records one
"connected" statistic, adding one to the connect counter. -/
def ConnectorStats.AddConnect (s : ConnectorStats) : ConnectorStats :=
  { s with connects := s.connects + 1 }

/-- Modelled from the spec: `stats.AddDisconnect` is not in src; it records one
"disconnected" statistic, adding one to the disconnect counter. -/
def ConnectorStats.AddDisconnect (s : ConnectorStats) : ConnectorStats :=
  { s with disconnects := s.disconnects + 1 }

/-- Modelled from the spec: `stats.Name` is not in src; it is the label the
holder was created with. -/
def ConnectorStats.Name (s : ConnectorStats) : String := s.name

/-- The struct `Stan2KafkaConnector`: the embedded `BridgeConnector` contributes
`config`, the label and `stats`; `writer` and `sub` are the two handles. -/
structure Stan2KafkaConnector where
  config : ConnectorConfig
  label : String
  stats : ConnectorStats
  writer : Option Writer
  sub : Option Subscription
deriving DecidableEq, Repr

/-- Modelled from the spec: `BridgeConnector.String` is not in src; it is the
human-readable label handed to `init`. -/
def Stan2KafkaConnector.String (conn : Stan2KafkaConnector) : String := conn.label

/-- Calls made on the collaborators, as they appear in the source. -/
inductive Event where
  | checkStan
  | tracef (msg : String)
  | noticef (msg : String)
  | connectWriter
  | subscribeToChannel (w : Option Writer)
  | unsubscribe (s : Subscription)
  | close (w : Writer)
  | addConnect
  | addDisconnect
deriving DecidableEq, Repr

/-- What an operation leaves behind: the connector, the collaborator calls it
made (in order) and the `error` it returns (`none` is nil). -/
structure Result where
  conn : Stan2KafkaConnector
  calls : List Event
  err : Option Error
deriving DecidableEq, Repr

/-- Values returned by the collaborators consulted by `Start`:
`bridge.CheckStan()`, `conn.connectWriter()` and the pair returned by
`conn.subscribeToChannel(conn.writer)`. -/
structure StartOutcome where
  checkStan : Bool
  connectWriter : Option Writer
  subscribeSub : Option Subscription
  subscribeErr : Option Error
deriving DecidableEq, Repr

/-- Values returned by the collaborators consulted by `Shutdown`: the error of
`conn.sub.Unsubscribe()` (dropped by the source) and of `writer.Close()`. -/
structure ShutdownOutcome where
  unsubscribe : Option Error
  close : Option Error
deriving DecidableEq, Repr

/-- Modelled from the spec: `BridgeConnector.init` is not in src; it stores the
configuration and the label and creates the statistics holder, counters at
zero. -/
def BridgeConnector_init (config : ConnectorConfig) (name : String) : Stan2KafkaConnector :=
  { config := config, label := name,
    stats := { name := name, connects := 0, disconnects := 0 },
    writer := none, sub := none }

/-- The constructor `NewStan2KafkaConnector`: an empty connector (both handles
nil) labelled "Stan:<channel> to Kafka:<topic>". -/
def NewStan2KafkaConnector (config : ConnectorConfig) : Stan2KafkaConnector :=
  BridgeConnector_init config ("Stan:" ++ config.Channel ++ " to Kafka:" ++ config.Topic)

/-- The method `Start` (lines 42-69). -/
def Start (conn : Stan2KafkaConnector) (o : StartOutcome) : Result :=
  if !o.checkStan then
    { conn := conn, calls := [Event.checkStan],
      err := some (conn.String ++ " connector requires nats streaming to be available") }
  else
    let ev1 := [Event.checkStan, Event.tracef ("starting connection " ++ conn.String),
                Event.connectWriter]
    let conn1 := { conn with writer := o.connectWriter }
    match conn1.writer with
    | none =>
      { conn := conn1, calls := ev1,
        err := some ("failed to connect to kafka writer for " ++ conn1.stats.Name) }
    | some _ =>
      let ev2 := ev1 ++ [Event.subscribeToChannel conn1.writer]
      match o.subscribeErr with
      | some err => { conn := conn1, calls := ev2, err := some err }
      | none =>
        let conn2 := { conn1 with sub := o.subscribeSub }
        let conn3 := { conn2 with stats := conn2.stats.AddConnect }
        { conn := conn3,
          calls := ev2 ++ [Event.addConnect,
                           Event.tracef ("opened and reading " ++ conn3.config.Channel),
                           Event.noticef ("started connection " ++ conn3.String)],
          err := none }

/-- The method `Shutdown` (lines 72-95). -/
def Shutdown (conn : Stan2KafkaConnector) (o : ShutdownOutcome) : Result :=
  let conn1 := { conn with stats := conn.stats.AddDisconnect }
  let ev1 := [Event.addDisconnect, Event.noticef ("shutting down connection " ++ conn1.String)]
  let r2 : Stan2KafkaConnector × List Event :=
    match conn1.sub with
    | some s =>
      if conn1.config.DurableName = "" then
        ({ conn1 with sub := none },
         ev1 ++ [Event.tracef ("unsubscribing from " ++ conn1.config.Channel),
                 Event.unsubscribe s])
      else (conn1, ev1)
    | none => (conn1, ev1)
  let writer := r2.1.writer
  let conn3 := { r2.1 with writer := none }
  match writer with
  | some w => { conn := conn3, calls := r2.2 ++ [Event.close w], err := o.close }
  | none => { conn := conn3, calls := r2.2, err := none }

/-- The method `CheckConnections` (lines 98-103). -/
def CheckConnections (conn : Stan2KafkaConnector) (checkStan : Bool) : Result :=
  if !checkStan then
    { conn := conn, calls := [Event.checkStan],
      err := some (conn.String ++ " connector requires nats streaming to be available") }
  else { conn := conn, calls := [Event.checkStan], err := none }

/-! ## Observations on the calls of an operation -/

/-- Number of `connectWriter` invocations among the calls. -/
def writerConstructions (evs : List Event) : Nat :=
  evs.count Event.connectWriter

/-- Arguments of the `subscribeToChannel` invocations, in order. -/
def subscriptionCreations (evs : List Event) : List (Option Writer) :=
  evs.filterMap fun e => match e with
    | Event.subscribeToChannel w => some w
    | _ => none

/-- Subscriptions on which `Unsubscribe` was invoked, in order. -/
def unsubscribed (evs : List Event) : List Subscription :=
  evs.filterMap fun e => match e with
    | Event.unsubscribe s => some s
    | _ => none

/-- Writers on which `Close` was invoked, in order. -/
def closed (evs : List Event) : List Writer :=
  evs.filterMap fun e => match e with
    | Event.close w => some w
    | _ => none

/-- The connector is Stopped: writer handle and subscription handle both nil. -/
def Stopped (conn : Stan2KafkaConnector) : Prop :=
  conn.writer = none ∧ conn.sub = none

instance (conn : Stan2KafkaConnector) : Decidable (Stopped conn) := by
  unfold Stopped; infer_instance

/-! ## Serialized executions -/

/-- One administrative call together with the values its collaborators return. -/
inductive Call where
  | start (o : StartOutcome)
  | shutdown (o : ShutdownOutcome)
  | check (checkStan : Bool)
deriving DecidableEq, Repr

/-- Apply one call to a connector. -/
def step (conn : Stan2KafkaConnector) : Call → Result
  | Call.start o => Start conn o
  | Call.shutdown o => Shutdown conn o
  | Call.check b => CheckConnections conn b

/-- State after a sequence of calls, each run on the state left by the one
before it. -/
def run (conn : Stan2KafkaConnector) : List Call → Stan2KafkaConnector
  | [] => conn
  | c :: cs => run (step conn c).conn cs

/-- A Start call that cannot leave one handle without the other: the probe
fails; or writer construction fails while no subscription is held; or
subscription creation returns a handle and no error. Other calls always
qualify. -/
def cleanCall (conn : Stan2KafkaConnector) : Call → Bool
  | Call.start o =>
    if !o.checkStan then true
    else match o.connectWriter with
      | none => conn.sub.isNone
      | some _ => o.subscribeErr.isNone && o.subscribeSub.isSome
  | _ => true

/-- Every call of the sequence is clean in the state it is issued in. -/
def cleanRun (conn : Stan2KafkaConnector) : List Call → Bool
  | [] => true
  | c :: cs => cleanCall conn c && cleanRun (step conn c).conn cs

/-! ## Sample data -/

/-- Configuration of scenario A: no durable name. -/
def ordersConfig : ConnectorConfig :=
  { Channel := "orders", Topic := "orders-topic", DurableName := "" }

/-- Configuration of scenario B: durable name "dur1". -/
def durableConfig : ConnectorConfig :=
  { Channel := "orders", Topic := "orders-topic", DurableName := "dur1" }

/-- All collaborators succeed: writer 7, subscription 3. -/
def okStart : StartOutcome :=
  { checkStan := true, connectWriter := some 7, subscribeSub := some 3, subscribeErr := none }

/-- All collaborators succeed a second time: writer 8, subscription 4. -/
def okStart2 : StartOutcome :=
  { checkStan := true, connectWriter := some 8, subscribeSub := some 4, subscribeErr := none }

/-- Writer 7 is built, subscription creation fails. -/
def subFailStart : StartOutcome :=
  { checkStan := true, connectWriter := some 7, subscribeSub := none,
    subscribeErr := some "subscribe failed" }

/-- The source is reachable, writer construction returns nil. -/
def writerFailStart : StartOutcome :=
  { checkStan := true, connectWriter := none, subscribeSub := some 3, subscribeErr := none }

/-- The source is unreachable. -/
def noStanStart : StartOutcome :=
  { checkStan := false, connectWriter := some 7, subscribeSub := some 3, subscribeErr := none }

/-- Unsubscribe succeeds, Close fails. -/
def closeFails : ShutdownOutcome :=
  { unsubscribe := none, close := some "close failed" }

/-- Unsubscribe and Close both succeed. -/
def quietShutdown : ShutdownOutcome :=
  { unsubscribe := none, close := none }

/-! ## Helper lemmas -/

theorem Start_config (conn : Stan2KafkaConnector) (o : StartOutcome) :
    (Start conn o).conn.config = conn.config := by
  unfold Start
  split
  · rfl
  · dsimp only
    split
    · rfl
    · split <;> rfl

theorem Shutdown_config (conn : Stan2KafkaConnector) (o : ShutdownOutcome) :
    (Shutdown conn o).conn.config = conn.config := by
  unfold Shutdown
  dsimp only
  split <;> (split <;> try split) <;> rfl

theorem Shutdown_writer (conn : Stan2KafkaConnector) (o : ShutdownOutcome) :
    (Shutdown conn o).conn.writer = none := by
  unfold Shutdown
  dsimp only
  split <;> rfl

theorem Shutdown_sub_of_not_durable (conn : Stan2KafkaConnector) (o : ShutdownOutcome)
    (h : conn.config.DurableName = "") : (Shutdown conn o).conn.sub = none := by
  unfold Shutdown
  dsimp only
  cases hs : conn.sub <;> cases hw : conn.writer <;> simp [h]

theorem Shutdown_disconnects (conn : Stan2KafkaConnector) (o : ShutdownOutcome) :
    (Shutdown conn o).conn.stats.disconnects = conn.stats.disconnects + 1 := by
  unfold Shutdown
  dsimp only
  split <;> (split <;> try split) <;> rfl

theorem Shutdown_sub_or_durable (conn : Stan2KafkaConnector) (o : ShutdownOutcome) :
    (Shutdown conn o).conn.sub = none ∨ (Shutdown conn o).conn.config.DurableName ≠ "" := by
  by_cases hd : conn.config.DurableName = ""
  · exact Or.inl (Shutdown_sub_of_not_durable conn o hd)
  · right
    rw [Shutdown_config]
    exact hd

theorem Shutdown_quiet (conn : Stan2KafkaConnector) (o : ShutdownOutcome)
    (hw : conn.writer = none) (hs : conn.sub = none ∨ conn.config.DurableName ≠ "") :
    unsubscribed (Shutdown conn o).calls = [] ∧
    closed (Shutdown conn o).calls = [] ∧
    (Shutdown conn o).err = none ∧
    (Shutdown conn o).conn.sub = conn.sub := by
  unfold Shutdown
  dsimp only
  rcases hs with hs | hd
  · simp [hs, hw, unsubscribed, closed]
  · cases hsub : conn.sub <;> simp [hd, hw, unsubscribed, closed]

/-! ## C1: handles after a failed Start -/

/-- C1, as stated, fails: on a Stopped connector with the source reachable and
writer 7 built, a subscription error makes Start return that error while the
writer handle is still 7. -/
theorem start_error_leaves_writer :
    Stopped (NewStan2KafkaConnector ordersConfig) ∧
    (Start (NewStan2KafkaConnector ordersConfig) subFailStart).err = some "subscribe failed" ∧
    (Start (NewStan2KafkaConnector ordersConfig) subFailStart).conn.writer = some 7 ∧
    (Start (NewStan2KafkaConnector ordersConfig) subFailStart).conn.sub = none :=
  ⟨⟨rfl, rfl⟩, rfl, rfl, rfl⟩

/-- C1, amended: for a Stopped connector and any collaborator outcomes, if Start
returns an error then the subscription handle is nil and Start closed no
writer; the writer handle is nil when the source is unreachable or writer
construction returned nil, and it is the constructed writer w when the error
comes from subscription creation. -/
theorem start_error_handles (conn : Stan2KafkaConnector) (o : StartOutcome)
    (hs : Stopped conn) (herr : (Start conn o).err ≠ none) :
    (Start conn o).conn.sub = none ∧
    closed (Start conn o).calls = [] ∧
    (o.checkStan = false ∨ o.connectWriter = none → (Start conn o).conn.writer = none) ∧
    (∀ w, o.checkStan = true → o.connectWriter = some w →
      o.subscribeErr ≠ none ∧ (Start conn o).conn.writer = some w) := by
  obtain ⟨hw, hsub⟩ := hs
  rcases o with ⟨cs, cw, ss, se⟩
  cases cs <;> cases cw <;> cases se <;>
    simp_all [Start, closed, ConnectorStats.AddConnect]

/-- Witness for C1 (amended): the fresh scenario-A connector with a failing
subscription. -/
theorem start_error_handles_witness :
    (Start (NewStan2KafkaConnector ordersConfig) subFailStart).conn.sub = none ∧
    closed (Start (NewStan2KafkaConnector ordersConfig) subFailStart).calls = [] ∧
    (subFailStart.checkStan = false ∨ subFailStart.connectWriter = none →
      (Start (NewStan2KafkaConnector ordersConfig) subFailStart).conn.writer = none) ∧
    (∀ w, subFailStart.checkStan = true → subFailStart.connectWriter = some w →
      subFailStart.subscribeErr ≠ none ∧
      (Start (NewStan2KafkaConnector ordersConfig) subFailStart).conn.writer = some w) :=
  start_error_handles (NewStan2KafkaConnector ordersConfig) subFailStart ⟨rfl, rfl⟩
    (by simp [Start, subFailStart])

/-! ## C2: the writer on a subscription failure -/

/-- C2, as stated, fails: with the source reachable, writer 7 built and a
subscription error, Start returns that error but has invoked Close on no
writer. -/
theorem start_subscribe_failure_no_close :
    subFailStart.checkStan = true ∧ subFailStart.connectWriter = some 7 ∧
    subFailStart.subscribeErr = some "subscribe failed" ∧
    (Start (NewStan2KafkaConnector ordersConfig) subFailStart).err = some "subscribe failed" ∧
    closed (Start (NewStan2KafkaConnector ordersConfig) subFailStart).calls = [] ∧
    ¬ closed (Start (NewStan2KafkaConnector ordersConfig) subFailStart).calls = [7] :=
  ⟨rfl, rfl, rfl, rfl, rfl, by decide⟩

/-- C2, amended: when the source is reachable, writer construction returns w
and subscription creation returns an error, Start returns that error without
invoking Close; w stays in the writer handle, and the next Shutdown invokes
Close on w exactly once and clears the handle. -/
theorem start_subscribe_failure_keeps_writer (conn : Stan2KafkaConnector) (o : StartOutcome)
    (so : ShutdownOutcome) (w : Writer) (e : Error)
    (hc : o.checkStan = true) (hw : o.connectWriter = some w) (he : o.subscribeErr = some e) :
    (Start conn o).err = some e ∧
    closed (Start conn o).calls = [] ∧
    subscriptionCreations (Start conn o).calls = [some w] ∧
    (Start conn o).conn.writer = some w ∧
    closed (Shutdown (Start conn o).conn so).calls = [w] ∧
    (Shutdown (Start conn o).conn so).conn.writer = none := by
  rcases o with ⟨cs, cw, ss, se⟩
  simp only at hc hw he
  subst hc hw he
  have hstart : (Start conn ⟨true, some w, ss, some e⟩).conn = { conn with writer := some w } := by
    simp [Start]
  refine ⟨by simp [Start], by simp [Start, closed], by simp [Start, subscriptionCreations],
    by simp [Start], ?_, Shutdown_writer _ _⟩
  rw [hstart]
  unfold Shutdown
  dsimp only
  cases hsub : conn.sub
  · simp [closed]
  · by_cases hd : conn.config.DurableName = "" <;> simp [closed, hd]

/-- Witness for C2 (amended): scenario D on the fresh scenario-A connector. -/
theorem start_subscribe_failure_keeps_writer_witness :
    (Start (NewStan2KafkaConnector ordersConfig) subFailStart).err = some "subscribe failed" ∧
    closed (Start (NewStan2KafkaConnector ordersConfig) subFailStart).calls = [] ∧
    subscriptionCreations (Start (NewStan2KafkaConnector ordersConfig) subFailStart).calls
      = [some 7] ∧
    (Start (NewStan2KafkaConnector ordersConfig) subFailStart).conn.writer = some 7 ∧
    closed (Shutdown (Start (NewStan2KafkaConnector ordersConfig) subFailStart).conn
      quietShutdown).calls = [7] ∧
    (Shutdown (Start (NewStan2KafkaConnector ordersConfig) subFailStart).conn
      quietShutdown).conn.writer = none :=
  start_subscribe_failure_keeps_writer (NewStan2KafkaConnector ordersConfig) subFailStart
    quietShutdown 7 "subscribe failed" rfl rfl rfl

/-! ## C3: writer handle nil iff subscription handle nil -/

/-- C3, as stated, fails in three ways, each from a fresh connector:
a Start whose subscription creation fails leaves the writer without a
subscription; with a durable name, Start then Shutdown leaves the subscription
without a writer; and without a durable name, a successful Start followed by a
Start whose writer construction fails leaves the subscription without a
writer. -/
theorem handles_not_always_paired :
    ¬ ((run (NewStan2KafkaConnector ordersConfig) [Call.start subFailStart]).writer = none ↔
       (run (NewStan2KafkaConnector ordersConfig) [Call.start subFailStart]).sub = none) ∧
    ¬ ((run (NewStan2KafkaConnector durableConfig)
          [Call.start okStart, Call.shutdown quietShutdown]).writer = none ↔
       (run (NewStan2KafkaConnector durableConfig)
          [Call.start okStart, Call.shutdown quietShutdown]).sub = none) ∧
    ¬ ((run (NewStan2KafkaConnector ordersConfig)
          [Call.start okStart, Call.start writerFailStart]).writer = none ↔
       (run (NewStan2KafkaConnector ordersConfig)
          [Call.start okStart, Call.start writerFailStart]).sub = none) := by
  refine ⟨?_, ?_, ?_⟩
  · have hw : (run (NewStan2KafkaConnector ordersConfig) [Call.start subFailStart]).writer
        = some 7 := rfl
    have hs : (run (NewStan2KafkaConnector ordersConfig) [Call.start subFailStart]).sub
        = none := rfl
    rw [hw, hs]; simp
  · have hw : (run (NewStan2KafkaConnector durableConfig)
        [Call.start okStart, Call.shutdown quietShutdown]).writer = none := rfl
    have hs : (run (NewStan2KafkaConnector durableConfig)
        [Call.start okStart, Call.shutdown quietShutdown]).sub = some 3 := by
      simp [run, step, Start, Shutdown, okStart, durableConfig, NewStan2KafkaConnector,
        BridgeConnector_init]
    rw [hw, hs]; simp
  · have hw : (run (NewStan2KafkaConnector ordersConfig)
        [Call.start okStart, Call.start writerFailStart]).writer = none := rfl
    have hs : (run (NewStan2KafkaConnector ordersConfig)
        [Call.start okStart, Call.start writerFailStart]).sub = some 3 := rfl
    rw [hw, hs]; simp

/-- Invariant step used for C3: a clean call on a connector without durable
name whose handles are paired leaves them paired. -/
theorem step_keeps_pairing (conn : Stan2KafkaConnector) (c : Call)
    (hd : conn.config.DurableName = "") (hp : conn.writer = none ↔ conn.sub = none)
    (hc : cleanCall conn c = true) :
    (step conn c).conn.config.DurableName = "" ∧
    ((step conn c).conn.writer = none ↔ (step conn c).conn.sub = none) := by
  cases c with
  | start o =>
    refine ⟨by simp only [step, Start_config]; exact hd, ?_⟩
    rcases o with ⟨cs, cw, ss, se⟩
    cases cs <;> cases cw <;> cases se <;> cases ss <;>
      simp_all [step, Start, cleanCall]
  | shutdown o =>
    refine ⟨by simp only [step, Shutdown_config]; exact hd, ?_⟩
    simp only [step, Shutdown_writer, Shutdown_sub_of_not_durable conn o hd]
  | check b =>
    cases b <;> simp_all [step, CheckConnections]

/-- C3, amended: for a connector configured without durable name, in every
state reached from the freshly constructed connector by a finite sequence of
Start, Shutdown and CheckConnections calls in which every Start is clean (the
probe fails, or writer construction fails while no subscription is held, or
subscription creation returns a handle and no error), the writer handle is nil
if and only if the subscription handle is nil. -/
theorem handles_paired_on_clean_runs (config : ConnectorConfig) (calls : List Call)
    (hd : config.DurableName = "")
    (hc : cleanRun (NewStan2KafkaConnector config) calls = true) :
    (run (NewStan2KafkaConnector config) calls).writer = none ↔
    (run (NewStan2KafkaConnector config) calls).sub = none := by
  have key : ∀ (cs : List Call) (conn : Stan2KafkaConnector),
      conn.config.DurableName = "" → (conn.writer = none ↔ conn.sub = none) →
      cleanRun conn cs = true →
      ((run conn cs).writer = none ↔ (run conn cs).sub = none) := by
    intro cs
    induction cs with
    | nil => intro conn _ hp _; exact hp
    | cons c cs ih =>
      intro conn hd hp hcl
      simp only [cleanRun, Bool.and_eq_true] at hcl
      obtain ⟨h1, h2⟩ := step_keeps_pairing conn c hd hp hcl.1
      exact ih (step conn c).conn h1 h2 hcl.2
  exact key calls (NewStan2KafkaConnector config) hd (by simp [NewStan2KafkaConnector,
    BridgeConnector_init]) hc

/-- Witness for C3 (amended): probe failure, writer failure while stopped, a
successful Start, a health check and a Shutdown. -/
theorem handles_paired_on_clean_runs_witness :
    (run (NewStan2KafkaConnector ordersConfig)
      [Call.start noStanStart, Call.start writerFailStart, Call.start okStart,
       Call.check false, Call.shutdown closeFails, Call.start okStart2]).writer = none ↔
    (run (NewStan2KafkaConnector ordersConfig)
      [Call.start noStanStart, Call.start writerFailStart, Call.start okStart,
       Call.check false, Call.shutdown closeFails, Call.start okStart2]).sub = none :=
  handles_paired_on_clean_runs ordersConfig
    [Call.start noStanStart, Call.start writerFailStart, Call.start okStart,
     Call.check false, Call.shutdown closeFails, Call.start okStart2] rfl (by
      simp [cleanRun, cleanCall, step, Start, Shutdown, CheckConnections, noStanStart,
        writerFailStart, okStart, okStart2, NewStan2KafkaConnector, BridgeConnector_init,
        ordersConfig])

/-! ## C4: Unsubscribe policy of Shutdown -/

/-- C4: with a subscription handle s present, Shutdown of a connector without
durable name invokes Unsubscribe exactly once, on s, and leaves the
subscription handle nil; with a durable name it invokes Unsubscribe zero times
and leaves the handle equal to s. With no subscription handle present,
Shutdown invokes Unsubscribe zero times. -/
theorem shutdown_unsubscribe_policy (conn : Stan2KafkaConnector) (o : ShutdownOutcome) :
    (∀ s, conn.sub = some s → conn.config.DurableName = "" →
      unsubscribed (Shutdown conn o).calls = [s] ∧ (Shutdown conn o).conn.sub = none) ∧
    (∀ s, conn.sub = some s → conn.config.DurableName ≠ "" →
      unsubscribed (Shutdown conn o).calls = [] ∧ (Shutdown conn o).conn.sub = some s) ∧
    (conn.sub = none → unsubscribed (Shutdown conn o).calls = []) := by
  refine ⟨?_, ?_, ?_⟩
  · intro s hs hd
    unfold Shutdown
    dsimp only
    cases hw : conn.writer <;> simp [hs, hd, unsubscribed]
  · intro s hs hd
    unfold Shutdown
    dsimp only
    cases hw : conn.writer <;> simp [hs, hd, unsubscribed]
  · intro hs
    unfold Shutdown
    dsimp only
    cases hw : conn.writer <;> simp [hs, unsubscribed]

/-- Witness for C4: a running connector with writer 7 and subscription 3, once
without and once with a durable name, and a fresh connector. -/
theorem shutdown_unsubscribe_policy_witness :
    (unsubscribed (Shutdown (Start (NewStan2KafkaConnector ordersConfig) okStart).conn
        closeFails).calls = [3] ∧
      (Shutdown (Start (NewStan2KafkaConnector ordersConfig) okStart).conn
        closeFails).conn.sub = none) ∧
    (unsubscribed (Shutdown (Start (NewStan2KafkaConnector durableConfig) okStart).conn
        closeFails).calls = [] ∧
      (Shutdown (Start (NewStan2KafkaConnector durableConfig) okStart).conn
        closeFails).conn.sub = some 3) ∧
    unsubscribed (Shutdown (NewStan2KafkaConnector durableConfig) closeFails).calls = [] :=
  ⟨(shutdown_unsubscribe_policy (Start (NewStan2KafkaConnector ordersConfig) okStart).conn
      closeFails).1 3 rfl rfl,
   (shutdown_unsubscribe_policy (Start (NewStan2KafkaConnector durableConfig) okStart).conn
      closeFails).2.1 3 rfl (by simp [Start_config, NewStan2KafkaConnector,
        BridgeConnector_init, durableConfig]),
   (shutdown_unsubscribe_policy (NewStan2KafkaConnector durableConfig) closeFails).2.2 rfl⟩

/-! ## C5: Shutdown is idempotent -/

/-- C5: for every connector state, configuration and outcomes of Unsubscribe
and Close, a second Shutdown right after a first one invokes neither
Unsubscribe nor Close, returns no error, leaves the writer and subscription
handles as the first call left them, and adds exactly one to the disconnect
counter, so that the two calls together add exactly two. -/
theorem shutdown_idempotent (conn : Stan2KafkaConnector) (o1 o2 : ShutdownOutcome) :
    unsubscribed (Shutdown (Shutdown conn o1).conn o2).calls = [] ∧
    closed (Shutdown (Shutdown conn o1).conn o2).calls = [] ∧
    (Shutdown (Shutdown conn o1).conn o2).err = none ∧
    (Shutdown (Shutdown conn o1).conn o2).conn.writer = (Shutdown conn o1).conn.writer ∧
    (Shutdown (Shutdown conn o1).conn o2).conn.sub = (Shutdown conn o1).conn.sub ∧
    (Shutdown (Shutdown conn o1).conn o2).conn.stats.disconnects
      = (Shutdown conn o1).conn.stats.disconnects + 1 ∧
    (Shutdown (Shutdown conn o1).conn o2).conn.stats.disconnects
      = conn.stats.disconnects + 2 := by
  have hw := Shutdown_writer conn o1
  have hq := Shutdown_quiet (Shutdown conn o1).conn o2 hw (Shutdown_sub_or_durable conn o1)
  refine ⟨hq.1, hq.2.1, hq.2.2.1, ?_, hq.2.2.2, Shutdown_disconnects _ _, ?_⟩
  · rw [Shutdown_writer, Shutdown_writer]
  · rw [Shutdown_disconnects, Shutdown_disconnects]

/-! ## C6: scenario A -/

/-- C6: on a Stopped connector without durable name, when the source is
reachable, writer construction returns w and subscription creation returns s:
Start returns no error, installs w and s and adds one to the connect counter;
the following Shutdown invokes Unsubscribe exactly once (on s) and Close
exactly once (on w), adds one to the disconnect counter, leaves both handles
nil and returns exactly the result of Close on w. -/
theorem start_then_shutdown (conn : Stan2KafkaConnector) (o : StartOutcome)
    (so : ShutdownOutcome) (w : Writer) (s : Subscription)
    (_hst : Stopped conn) (hd : conn.config.DurableName = "")
    (hc : o.checkStan = true) (hw : o.connectWriter = some w)
    (hs : o.subscribeSub = some s) (he : o.subscribeErr = none) :
    (Start conn o).err = none ∧
    (Start conn o).conn.writer = some w ∧
    (Start conn o).conn.sub = some s ∧
    (Start conn o).conn.stats.connects = conn.stats.connects + 1 ∧
    unsubscribed (Shutdown (Start conn o).conn so).calls = [s] ∧
    closed (Shutdown (Start conn o).conn so).calls = [w] ∧
    (Shutdown (Start conn o).conn so).conn.stats.disconnects
      = (Start conn o).conn.stats.disconnects + 1 ∧
    (Shutdown (Start conn o).conn so).conn.writer = none ∧
    (Shutdown (Start conn o).conn so).conn.sub = none ∧
    (Shutdown (Start conn o).conn so).err = so.close := by
  rcases o with ⟨cs, cw, ss, se⟩
  simp only at hc hw hs he
  subst hc hw hs he
  simp [Start, Shutdown, hd, unsubscribed, closed, ConnectorStats.AddConnect,
    ConnectorStats.AddDisconnect]

/-- Witness for C6: channel "orders", topic "orders-topic", no durable name,
writer 7, subscription 3, and a Close that fails. -/
theorem start_then_shutdown_witness :
    (Start (NewStan2KafkaConnector ordersConfig) okStart).err = none ∧
    (Start (NewStan2KafkaConnector ordersConfig) okStart).conn.writer = some 7 ∧
    (Start (NewStan2KafkaConnector ordersConfig) okStart).conn.sub = some 3 ∧
    (Start (NewStan2KafkaConnector ordersConfig) okStart).conn.stats.connects
      = (NewStan2KafkaConnector ordersConfig).stats.connects + 1 ∧
    unsubscribed (Shutdown (Start (NewStan2KafkaConnector ordersConfig) okStart).conn
      closeFails).calls = [3] ∧
    closed (Shutdown (Start (NewStan2KafkaConnector ordersConfig) okStart).conn
      closeFails).calls = [7] ∧
    (Shutdown (Start (NewStan2KafkaConnector ordersConfig) okStart).conn
      closeFails).conn.stats.disconnects
      = (Start (NewStan2KafkaConnector ordersConfig) okStart).conn.stats.disconnects + 1 ∧
    (Shutdown (Start (NewStan2KafkaConnector ordersConfig) okStart).conn
      closeFails).conn.writer = none ∧
    (Shutdown (Start (NewStan2KafkaConnector ordersConfig) okStart).conn
      closeFails).conn.sub = none ∧
    (Shutdown (Start (NewStan2KafkaConnector ordersConfig) okStart).conn
      closeFails).err = closeFails.close :=
  start_then_shutdown (NewStan2KafkaConnector ordersConfig) okStart closeFails 7 3
    ⟨rfl, rfl⟩ rfl rfl rfl rfl rfl

/-! ## C7: scenario C -/

/-- C7: on a Stopped connector, if the source is reachable but writer
construction returns no writer, Start returns an error, never invokes
subscription creation, leaves the connect counter unchanged, and both handles
are nil afterwards. -/
theorem start_writer_failure (conn : Stan2KafkaConnector) (o : StartOutcome)
    (hst : Stopped conn) (hc : o.checkStan = true) (hw : o.connectWriter = none) :
    (Start conn o).err ≠ none ∧
    subscriptionCreations (Start conn o).calls = [] ∧
    (Start conn o).conn.stats.connects = conn.stats.connects ∧
    (Start conn o).conn.writer = none ∧
    (Start conn o).conn.sub = none := by
  obtain ⟨hwn, hsn⟩ := hst
  rcases o with ⟨cs, cw, ss, se⟩
  simp only at hc hw
  subst hc hw
  simp [Start, subscriptionCreations, hsn]

/-- Witness for C7: the fresh scenario-A connector with a failing writer
construction. -/
theorem start_writer_failure_witness :
    (Start (NewStan2KafkaConnector ordersConfig) writerFailStart).err ≠ none ∧
    subscriptionCreations (Start (NewStan2KafkaConnector ordersConfig) writerFailStart).calls
      = [] ∧
    (Start (NewStan2KafkaConnector ordersConfig) writerFailStart).conn.stats.connects
      = (NewStan2KafkaConnector ordersConfig).stats.connects ∧
    (Start (NewStan2KafkaConnector ordersConfig) writerFailStart).conn.writer = none ∧
    (Start (NewStan2KafkaConnector ordersConfig) writerFailStart).conn.sub = none :=
  start_writer_failure (NewStan2KafkaConnector ordersConfig) writerFailStart ⟨rfl, rfl⟩ rfl rfl

/-! ## C8: two serialized Start attempts -/

/-- C8, as stated, fails: two Start attempts in a row on the fresh scenario-A
connector, all collaborators succeeding, invoke writer construction twice and
subscription creation twice, and the second attempt replaces writer 7 and
subscription 3 of the first by its own writer 8 and subscription 4. -/
theorem second_start_allocates_again :
    Stopped (NewStan2KafkaConnector ordersConfig) ∧
    writerConstructions ((Start (NewStan2KafkaConnector ordersConfig) okStart).calls ++
      (Start (Start (NewStan2KafkaConnector ordersConfig) okStart).conn okStart2).calls) = 2 ∧
    subscriptionCreations ((Start (NewStan2KafkaConnector ordersConfig) okStart).calls ++
      (Start (Start (NewStan2KafkaConnector ordersConfig) okStart).conn okStart2).calls)
      = [some 7, some 8] ∧
    (Start (NewStan2KafkaConnector ordersConfig) okStart).conn.writer = some 7 ∧
    (Start (NewStan2KafkaConnector ordersConfig) okStart).conn.sub = some 3 ∧
    (Start (Start (NewStan2KafkaConnector ordersConfig) okStart).conn okStart2).conn.writer
      = some 8 ∧
    (Start (Start (NewStan2KafkaConnector ordersConfig) okStart).conn okStart2).conn.sub
      = some 4 := by
  refine ⟨⟨rfl, rfl⟩, ?_, ?_, rfl, rfl, rfl, rfl⟩
  · simp [writerConstructions, Start, okStart, okStart2]
  · simp [subscriptionCreations, Start, okStart, okStart2]

/-- C8, amended: for two Start attempts run one after the other on a Stopped
connector, with the source reachable and writer construction and subscription
creation succeeding in both: each attempt allocates resources, so writer
construction and subscription creation are each invoked exactly twice in
total; both attempts return no error and the connect counter grows by two; the
second attempt replaces the handles installed by the first with its own,
without Close or Unsubscribe being invoked on the first ones. -/
theorem two_starts_both_allocate (conn : Stan2KafkaConnector) (o1 o2 : StartOutcome)
    (w1 w2 : Writer) (s1 s2 : Subscription) (_hst : Stopped conn)
    (hc1 : o1.checkStan = true) (hw1 : o1.connectWriter = some w1)
    (hs1 : o1.subscribeSub = some s1) (he1 : o1.subscribeErr = none)
    (hc2 : o2.checkStan = true) (hw2 : o2.connectWriter = some w2)
    (hs2 : o2.subscribeSub = some s2) (he2 : o2.subscribeErr = none) :
    writerConstructions ((Start conn o1).calls ++ (Start (Start conn o1).conn o2).calls) = 2 ∧
    subscriptionCreations ((Start conn o1).calls ++ (Start (Start conn o1).conn o2).calls)
      = [some w1, some w2] ∧
    (Start conn o1).err = none ∧
    (Start (Start conn o1).conn o2).err = none ∧
    (Start conn o1).conn.writer = some w1 ∧
    (Start conn o1).conn.sub = some s1 ∧
    (Start (Start conn o1).conn o2).conn.writer = some w2 ∧
    (Start (Start conn o1).conn o2).conn.sub = some s2 ∧
    (Start (Start conn o1).conn o2).conn.stats.connects = conn.stats.connects + 2 ∧
    closed ((Start conn o1).calls ++ (Start (Start conn o1).conn o2).calls) = [] ∧
    unsubscribed ((Start conn o1).calls ++ (Start (Start conn o1).conn o2).calls) = [] := by
  rcases o1 with ⟨c1, cw1, ss1, se1⟩
  rcases o2 with ⟨c2, cw2, ss2, se2⟩
  simp only at hc1 hw1 hs1 he1 hc2 hw2 hs2 he2
  subst hc1 hw1 hs1 he1 hc2 hw2 hs2 he2
  simp [Start, writerConstructions, subscriptionCreations, closed, unsubscribed,
    ConnectorStats.AddConnect]

/-- Witness for C8 (amended): the fresh scenario-A connector, writers 7 and 8,
subscriptions 3 and 4. -/
theorem two_starts_both_allocate_witness :
    writerConstructions ((Start (NewStan2KafkaConnector ordersConfig) okStart).calls ++
      (Start (Start (NewStan2KafkaConnector ordersConfig) okStart).conn okStart2).calls) = 2 ∧
    (Start (Start (NewStan2KafkaConnector ordersConfig) okStart).conn okStart2).conn.stats.connects
      = (NewStan2KafkaConnector ordersConfig).stats.connects + 2 :=
  have h := two_starts_both_allocate (NewStan2KafkaConnector ordersConfig) okStart okStart2
    7 8 3 4 ⟨rfl, rfl⟩ rfl rfl rfl rfl rfl rfl rfl rfl
  ⟨h.1, h.2.2.2.2.2.2.2.2.1⟩

/-! ## C9: Shutdown of a connector that was never started -/

/-- C9: on a connector with both handles nil, for any configuration, Shutdown
returns no error, invokes neither Close nor Unsubscribe, leaves both handles
nil and adds exactly one to the disconnect counter. -/
theorem shutdown_never_started (conn : Stan2KafkaConnector) (o : ShutdownOutcome)
    (hst : Stopped conn) :
    (Shutdown conn o).err = none ∧
    closed (Shutdown conn o).calls = [] ∧
    unsubscribed (Shutdown conn o).calls = [] ∧
    (Shutdown conn o).conn.writer = none ∧
    (Shutdown conn o).conn.sub = none ∧
    (Shutdown conn o).conn.stats.disconnects = conn.stats.disconnects + 1 := by
  obtain ⟨hw, hs⟩ := hst
  have hq := Shutdown_quiet conn o hw (Or.inl hs)
  exact ⟨hq.2.2.1, hq.2.1, hq.1, Shutdown_writer conn o, by rw [hq.2.2.2, hs],
    Shutdown_disconnects conn o⟩

/-- Witness for C9: the freshly constructed durable connector, with a Close that
would fail if it were invoked. -/
theorem shutdown_never_started_witness :
    (Shutdown (NewStan2KafkaConnector durableConfig) closeFails).err = none ∧
    closed (Shutdown (NewStan2KafkaConnector durableConfig) closeFails).calls = [] ∧
    unsubscribed (Shutdown (NewStan2KafkaConnector durableConfig) closeFails).calls = [] ∧
    (Shutdown (NewStan2KafkaConnector durableConfig) closeFails).conn.writer = none ∧
    (Shutdown (NewStan2KafkaConnector durableConfig) closeFails).conn.sub = none ∧
    (Shutdown (NewStan2KafkaConnector durableConfig) closeFails).conn.stats.disconnects
      = (NewStan2KafkaConnector durableConfig).stats.disconnects + 1 :=
  shutdown_never_started (NewStan2KafkaConnector durableConfig) closeFails ⟨rfl, rfl⟩

/-! ## C10: CheckConnections is a read-only probe -/

/-- C10: for every connector state, CheckConnections leaves the connector (its
writer handle, subscription handle and connect/disconnect counters) unchanged
whatever its result, and returns an error if and only if the reachability
probe reports the source unavailable. -/
theorem check_connections_read_only (conn : Stan2KafkaConnector) (checkStan : Bool) :
    (CheckConnections conn checkStan).conn = conn ∧
    (CheckConnections conn checkStan).conn.writer = conn.writer ∧
    (CheckConnections conn checkStan).conn.sub = conn.sub ∧
    (CheckConnections conn checkStan).conn.stats.connects = conn.stats.connects ∧
    (CheckConnections conn checkStan).conn.stats.disconnects = conn.stats.disconnects ∧
    (CheckConnections conn checkStan).calls = [Event.checkStan] ∧
    ((CheckConnections conn checkStan).err ≠ none ↔ checkStan = false) := by
  cases checkStan <;> simp [CheckConnections]

end Stan2Kafka
